import Mathlib

/-!
Verification of the ToyWebAuthN ceremony engine against its specification.

The Python source is shallowly embedded below.  Credential ids are kept in
their websafe-base64-encoded form throughout (the database stores them
encoded and every comparison in the source happens on encoded strings), so
`websafe_encode`/`websafe_decode` never need to be modelled.  Byte strings
are `List Nat`.  MongoDB's credentials collection is a list of documents,
`find_one` returning the first match and `update_one` updating the first
match, as pymongo does.  Client parsing of `clientDataJSON` /
`authenticatorData` is represented by records carrying the parsed fields;
signature validity is an abstract boolean field since the cryptography
itself is out of scope.
-/

/-- A document of the `credentials` MongoDB collection, with exactly the
fields written by `WebAuthnRegistration.complete` (`mongo_credential_dict`). -/
structure StoredCredential where
  type : String
  id : String
  public_key : List Nat
  sign_count : Nat
  username : String
  userId : String
  displayName : String
deriving DecidableEq, Repr

/-- `self.db.credentials.find_one({'id': ...})`: first document whose `id`
field equals the given encoded credential id. -/
def find_one (db : List StoredCredential) (cid : String) : Option StoredCredential :=
  db.find? (fun c => c.id == cid)

/-- `self.db.credentials.update_one({'id': ...}, {'$set': {'sign_count': n}})`:
update the first matching document's `sign_count`. -/
def update_one (db : List StoredCredential) (cid : String) (n : Nat) : List StoredCredential :=
  match db with
  | [] => []
  | c :: rest =>
    if c.id == cid then { c with sign_count := n } :: rest
    else c :: update_one rest cid n

/-- `self.db.credentials.find_one({'username': ...})`. -/
def find_one_username (db : List StoredCredential) (username : String) : Option StoredCredential :=
  db.find? (fun c => c.username == username)

/-- `WebAuthnManager.verify_origin`: `return origin in self.origins`. -/
def verify_origin (origins : List String) (origin : String) : Bool :=
  origins.contains origin

/-! ## COSE public key serialization (`common/Credential.py`)

`serialize_public_key` is `cbor2.dumps` of the COSE key, which is a Python
dict from integer labels to integer or byte-string values, dumped in
insertion order; `deserialize_public_key` is `CoseKey.parse(cbor2.loads(b))`.
The CBOR fragment covering such dicts (RFC 8949 major types 0, 1, 2 and 5)
is embedded concretely. -/

/-- A value of a COSE key map: an integer or a byte string. -/
inductive CborLeaf where
  | int (i : Int)
  | bytes (b : List Nat)
deriving DecidableEq, Repr

/-- A COSE key as the ordered list of its dict entries. -/
abbrev CoseKeyMap := List (Int × CborLeaf)

/-- Big-endian bytes of `n`, `k` bytes wide (low `8*k` bits of `n`). -/
def natToBE : Nat → Nat → List Nat
  | 0, _ => []
  | k + 1, n => (n / 2 ^ (8 * k)) % 2 ^ 8 :: natToBE k n

/-- Read `k` big-endian bytes off the front of a byte stream. -/
def readBE : Nat → List Nat → Option (Nat × List Nat)
  | 0, l => some (0, l)
  | _ + 1, [] => none
  | k + 1, b :: l => (readBE k l).map (fun p => (b * 2 ^ (8 * k) + p.1, p.2))

/-- RFC 8949 head: major type and argument, with the minimal-width argument
encoding `cbor2` emits. -/
def encodeHead (major n : Nat) : List Nat :=
  if n < 24 then [32 * major + n]
  else if n < 2 ^ 8 then (32 * major + 24) :: natToBE 1 n
  else if n < 2 ^ 16 then (32 * major + 25) :: natToBE 2 n
  else if n < 2 ^ 32 then (32 * major + 26) :: natToBE 4 n
  else (32 * major + 27) :: natToBE 8 n

/-- Decode an RFC 8949 head: major type, argument, rest of the stream. -/
def decodeHead : List Nat → Option (Nat × Nat × List Nat)
  | [] => none
  | b :: l =>
    let info := b % 32
    if info < 24 then some (b / 32, info, l)
    else if info = 24 then (readBE 1 l).map (fun p => (b / 32, p.1, p.2))
    else if info = 25 then (readBE 2 l).map (fun p => (b / 32, p.1, p.2))
    else if info = 26 then (readBE 4 l).map (fun p => (b / 32, p.1, p.2))
    else if info = 27 then (readBE 8 l).map (fun p => (b / 32, p.1, p.2))
    else none

/-- CBOR encoding of an integer (major type 0 or 1). -/
def encodeInt (i : Int) : List Nat :=
  if 0 ≤ i then encodeHead 0 i.toNat else encodeHead 1 (-(i + 1)).toNat

/-- CBOR encoding of a COSE map value. -/
def encodeLeaf : CborLeaf → List Nat
  | .int i => encodeInt i
  | .bytes b => encodeHead 2 b.length ++ b

/-- CBOR decoding of an integer. -/
def decodeInt (l : List Nat) : Option (Int × List Nat) :=
  match decodeHead l with
  | none => none
  | some (major, n, r) =>
    if major = 0 then some ((n : Int), r)
    else if major = 1 then some (-((n : Int) + 1), r)
    else none

/-- CBOR decoding of a COSE map value. -/
def decodeLeaf (l : List Nat) : Option (CborLeaf × List Nat) :=
  match decodeHead l with
  | none => none
  | some (major, n, r) =>
    if major = 0 then some (.int (n : Int), r)
    else if major = 1 then some (.int (-((n : Int) + 1)), r)
    else if major = 2 then
      if n ≤ r.length then some (.bytes (r.take n), r.drop n) else none
    else none

/-- Decode `k` map entries. -/
def decodeEntries : Nat → List Nat → Option (CoseKeyMap × List Nat)
  | 0, l => some ([], l)
  | k + 1, l =>
    (decodeInt l).bind fun p =>
      (decodeLeaf p.2).bind fun q =>
        (decodeEntries k q.2).map fun m => ((p.1, q.1) :: m.1, m.2)

/-- `cbor2.dumps` on a COSE key dict (major type 5, entries in insertion
order). -/
def cbor_dumps (k : CoseKeyMap) : List Nat :=
  encodeHead 5 k.length ++ (k.map (fun p => encodeInt p.1 ++ encodeLeaf p.2)).flatten

/-- `cbor2.loads` restricted to the COSE key fragment: reads one map off the
front of the byte string. -/
def cbor_loads (l : List Nat) : Option CoseKeyMap :=
  match decodeHead l with
  | none => none
  | some (major, n, r) =>
    if major = 5 then
      match decodeEntries n r with
      | some (m, _) => some m
      | none => none
    else none

namespace Credential

/-- `Credential.serialize_public_key`: `return cbor2.dumps(public_key)`. -/
def serialize_public_key (k : CoseKeyMap) : List Nat :=
  cbor_dumps k

/-- `fido2.cose.CoseKey.parse`: reads `cose.get(3)` and raises unless it is
truthy (`if not alg: raise ValueError`); on success the returned key
instance equals the input mapping. -/
def CoseKey.parse (m : CoseKeyMap) : Option CoseKeyMap :=
  match m.lookup 3 with
  | none => none
  | some (.int i) => if i = 0 then none else some m
  | some (.bytes b) => if b = [] then none else some m

/-- `Credential.deserialize_public_key`:
`p = cbor2.loads(public_key_str); return CoseKey.parse(p)`. -/
def deserialize_public_key (b : List Nat) : Option CoseKeyMap :=
  (cbor_loads b).bind CoseKey.parse

end Credential

/-! ## Authentication ceremony (`authentication/WebAuthnAuthentication.py`) -/

/-- The fido2 server state returned by `authenticate_begin`: the encoded
challenge plus the user-verification requirement (`begin` always passes
`UserVerificationRequirement.PREFERRED`, i.e. not required). -/
structure AuthState where
  challenge : String
  userVerificationRequired : Bool
deriving DecidableEq, Repr

/-- The parsed content of the `complete` request body `data`: the encoded
credential id, the fields of `clientDataJSON`, the `authenticatorData`
flags byte and counter, and whether the assertion signature verifies under
the stored public key (the cryptographic check, abstracted). -/
structure AuthCompleteData where
  id : String
  clientDataType : String
  clientDataChallenge : String
  clientDataOrigin : String
  flags : Nat
  counter : Nat
  signatureValid : Bool
deriving DecidableEq, Repr

/-- `AuthenticatorData.is_user_present`: flag bit 0 (UP). -/
def is_user_present (flags : Nat) : Bool := flags.testBit 0

/-- `AuthenticatorData.is_user_verified`: flag bit 2 (UV). -/
def is_user_verified (flags : Nat) : Bool := flags.testBit 2

/-- Modelled from the spec: `Fido2Server.authenticate_complete` (the wrapped
fido2 library, not part of this repository's sources).  Per §4.3 it requires
`type == "webauthn.get"`, the echoed challenge to equal the state's
challenge, the origin to pass `verify_origin`, the user-present flag, the
user-verified flag when the state requires verification, and a valid
assertion signature; any failure raises. -/
def server_authenticate_complete (origins : List String) (state : AuthState)
    (data : AuthCompleteData) : Bool :=
  data.clientDataType == "webauthn.get" &&
  data.clientDataChallenge == state.challenge &&
  verify_origin origins data.clientDataOrigin &&
  is_user_present data.flags &&
  (!state.userVerificationRequired || is_user_verified data.flags) &&
  data.signatureValid

/-- Outcome of `WebAuthnAuthentication.complete`: the success JSON, or the
`({'status': 'error', 'message': ...}, 400)` pair produced by the
`except` block. -/
inductive AuthResult where
  | success
  | error (msg : String)
deriving DecidableEq, Repr

namespace WebAuthnAuthentication

/-- `WebAuthnAuthentication.complete(state, data)`, returning the result
together with the credentials collection after the call.  Mirrors the
source order: credential lookup (raises "Credential not found"), stored
public-key deserialization (raises on undecodable key), the wrapped
`server.authenticate_complete` call, the explicit user-presence and
user-verification check, then the unconditional `update_one` of
`sign_count` to `auth_data.counter` — the `counter <= sign_count`
comparison only emits a log warning and does not reject. -/
def complete (origins : List String) (state : AuthState)
    (db : List StoredCredential) (data : AuthCompleteData) :
    AuthResult × List StoredCredential :=
  match find_one db data.id with
  | none => (.error "Credential not found", db)
  | some cred =>
    match Credential.deserialize_public_key cred.public_key with
    | none => (.error "invalid stored public key", db)
    | some _ =>
      if !server_authenticate_complete origins state data then
        (.error "authenticate_complete failed", db)
      else if !is_user_present data.flags || !is_user_verified data.flags then
        (.error "User verification required but not performed", db)
      else
        (.success, update_one db data.id data.counter)

end WebAuthnAuthentication

/-! ## Registration ceremony (`registration/WebAuthnRegistration.py`) -/

/-- The fido2 server state returned by `register_begin` (challenge plus the
user-verification requirement; `begin` always passes PREFERRED). -/
structure RegState where
  challenge : String
  userVerificationRequired : Bool
deriving DecidableEq, Repr

/-- The `user` field of the `complete` request body — supplied by the
client, read via `data['user']['name']` etc. -/
structure RegUser where
  name : String
  id : String
  displayName : String
deriving DecidableEq, Repr

/-- The parsed content of the registration `complete` request body: the
client-supplied `user` object, the fields of `clientDataJSON`, and the
attested credential data carried by the attestation object (credential id
in encoded form, COSE public key, initial sign count), plus whether the
attestation parses/verifies structurally in the wrapped library. -/
structure RegCompleteData where
  user : RegUser
  clientDataType : String
  clientDataChallenge : String
  clientDataOrigin : String
  attCredentialId : String
  attPublicKey : CoseKeyMap
  attSignCount : Nat
  attestationValid : Bool
deriving DecidableEq, Repr

/-- Modelled from the spec: `Fido2Server.register_complete` (the wrapped
fido2 library, not part of this repository's sources).  Per §4.2 it
requires `type == "webauthn.create"`, the echoed challenge to equal the
state's challenge, the origin to pass `verify_origin`, and a structurally
valid attestation; any failure raises. -/
def server_register_complete (origins : List String) (state : RegState)
    (data : RegCompleteData) : Bool :=
  data.clientDataType == "webauthn.create" &&
  data.clientDataChallenge == state.challenge &&
  verify_origin origins data.clientDataOrigin &&
  data.attestationValid

/-- Outcome of `WebAuthnRegistration.complete`. -/
inductive RegResult where
  | success (credential_id : String) (username : String)
  | error (msg : String)
deriving DecidableEq, Repr

namespace WebAuthnRegistration

/-- The `mongo_credential_dict` document built by
`WebAuthnRegistration.complete`: every persisted user field comes from the
client-supplied `data['user']`, none from the ceremony state. -/
def mongoCredentialDict (data : RegCompleteData) : StoredCredential :=
  { type := "public-key"
    id := data.attCredentialId
    public_key := Credential.serialize_public_key data.attPublicKey
    sign_count := data.attSignCount
    username := data.user.name
    userId := data.user.id
    displayName := data.user.displayName }

/-- `WebAuthnRegistration.complete(state, data)`: the wrapped
`server.register_complete` call, then `insert_one` of the new document —
with no duplicate-credential-id check — and a success response carrying
the credential id and username. -/
def complete (origins : List String) (state : RegState)
    (db : List StoredCredential) (data : RegCompleteData) :
    RegResult × List StoredCredential :=
  if !server_register_complete origins state data then
    (.error "register_complete failed", db)
  else
    (.success data.attCredentialId data.user.name,
     db ++ [mongoCredentialDict data])

/-- Outcome of `WebAuthnRegistration.begin`.  The `error` constructor
mirrors the `({'status': 'error', ...}, 400)` shape the analogous
authentication `begin` produces; the registration source has no failure
path and never produces it. -/
inductive RegBeginResult where
  | ok (optionsChallenge : String) (state : RegState)
  | error (msg : String)
deriving DecidableEq, Repr

/-- `WebAuthnRegistration.begin(username)`.  The random `user_id`, the
server's challenge and the locally generated options challenge are passed
as parameters in place of `os.urandom`.  The lookup of the username's
existing credentials is performed but influences nothing (it is only
logged); there is no validation of `username`. -/
def begin (db : List StoredCredential) (username : String)
    (userId serverChallenge optionsChallenge : String) : RegBeginResult :=
  let existingUser := find_one_username db username
  match existingUser with
  | some _ => .ok optionsChallenge ⟨serverChallenge, false⟩
  | none => .ok optionsChallenge ⟨serverChallenge, false⟩

end WebAuthnRegistration

/-- Outcome of `WebAuthnAuthentication.begin`. -/
inductive AuthBeginResult where
  | ok (challenge : String) (state : AuthState)
  | error (msg : String)
deriving DecidableEq, Repr

namespace WebAuthnAuthentication

/-- `WebAuthnAuthentication.begin(username)`: rejects an empty username
with "No username provided", rejects a username with no stored credentials
with "No credentials registered", otherwise calls
`server.authenticate_begin` with `UserVerificationRequirement.PREFERRED`
and returns the challenge-bearing options and state.  The server-generated
challenge stands in for the random source. -/
def begin (db : List StoredCredential) (username : String)
    (challenge : String) : AuthBeginResult :=
  if username = "" then .error "No username provided"
  else if (db.filter (fun c => c.username == username)) = [] then
    .error "No credentials registered"
  else .ok challenge ⟨challenge, false⟩

end WebAuthnAuthentication

/-! ## Flask routes (`WebAuthnManager.py`, class `WebAuthnApp`) -/

/-- The Flask session as visible to the route handlers. -/
structure Session where
  register_state : Option RegState
  auth_state : Option AuthState
  username : Option String
deriving DecidableEq, Repr

/-- Outcome of the `/authenticate/complete` route: `session.pop` with no
default raises `KeyError` when the key is absent; on a successful ceremony
the route returns the redirect JSON; on a failed ceremony
`json.loads(result)` is applied to the `(body, 400)` tuple and raises
`TypeError`. -/
inductive AuthRouteOutcome where
  | redirect
  | typeError
  | keyError
deriving DecidableEq, Repr

/-- Outcome of the `/register/complete` route. -/
inductive RegRouteOutcome where
  | result (r : RegResult)
  | keyError
deriving DecidableEq, Repr

/-- The `/authenticate/complete` handler:
`state = session.pop('auth_state')` (KeyError when absent, removal when
present), then `authentication.complete`, then the status dispatch. -/
def authenticate_complete_route (origins : List String) (sess : Session)
    (db : List StoredCredential) (data : AuthCompleteData) :
    AuthRouteOutcome × Session × List StoredCredential :=
  match sess.auth_state with
  | none => (.keyError, sess, db)
  | some st =>
    let sess' := { sess with auth_state := none }
    match WebAuthnAuthentication.complete origins st db data with
    | (.success, db') => (.redirect, sess', db')
    | (.error _, db') => (.typeError, sess', db')

/-- The `/register/complete` handler:
`state = session.pop('register_state')` (KeyError when absent, removal
when present), then `registration.complete`. -/
def register_complete_route (origins : List String) (sess : Session)
    (db : List StoredCredential) (data : RegCompleteData) :
    RegRouteOutcome × Session × List StoredCredential :=
  match sess.register_state with
  | none => (.keyError, sess, db)
  | some st =>
    let sess' := { sess with register_state := none }
    let out := WebAuthnRegistration.complete origins st db data
    (.result out.1, sess', out.2)

/-! ## Well-formedness of COSE key maps

The integer and length bounds below are the range the modelled CBOR head
encoding covers (arguments up to `2^64`), which every real COSE key
satisfies: its labels and integer values are tiny and its byte strings are
key coordinates. -/

/-- Bounds on a COSE map value. -/
def LeafWF : CborLeaf → Prop
  | .int i => -(2 ^ 64 : Int) ≤ i ∧ i < 2 ^ 64
  | .bytes b => b.length < 2 ^ 64

instance (v : CborLeaf) : Decidable (LeafWF v) :=
  match v with
  | .int i => inferInstanceAs (Decidable (-(2 ^ 64 : Int) ≤ i ∧ i < 2 ^ 64))
  | .bytes b => inferInstanceAs (Decidable (b.length < 2 ^ 64))

/-- Bounds on one COSE map entry. -/
def EntryWF (p : Int × CborLeaf) : Prop :=
  (-(2 ^ 64 : Int) ≤ p.1 ∧ p.1 < 2 ^ 64) ∧ LeafWF p.2

instance (p : Int × CborLeaf) : Decidable (EntryWF p) :=
  inferInstanceAs (Decidable (_ ∧ _))

/-- Bounds on a COSE key map. -/
def CoseKeyWF (k : CoseKeyMap) : Prop :=
  k.length < 2 ^ 64 ∧ ∀ p ∈ k, EntryWF p

instance (k : CoseKeyMap) : Decidable (CoseKeyWF k) :=
  inferInstanceAs (Decidable (_ ∧ _))

/-! ## Theorems -/

/-- Reading back `k` big-endian bytes of `n` yields the low `8*k` bits. -/
theorem readBE_natToBE (k n : Nat) (r : List Nat) :
    readBE k (natToBE k n ++ r) = some (n % 2 ^ (8 * k), r) := by
  induction k with
  | zero => simp [readBE, natToBE, Nat.mod_one]
  | succ k ih =>
    have hsplit : n % 2 ^ (8 * (k + 1)) = n / 2 ^ (8 * k) % 2 ^ 8 * 2 ^ (8 * k) + n % 2 ^ (8 * k) := by
      have h8 : 8 * (k + 1) = 8 * k + 8 := by ring
      rw [h8, pow_add, Nat.mod_mul]
      ring
    simp only [natToBE, List.cons_append, readBE, List.append_eq]
    rw [ih]
    simp only [Option.map_some']
    rw [hsplit]

/-- Decoding inverts the head encoding for arguments below `2^64`. -/
theorem decodeHead_encodeHead (m n : Nat) (r : List Nat) (h : n < 2 ^ 64) :
    decodeHead (encodeHead m n ++ r) = some (m, n, r) := by
  unfold encodeHead decodeHead
  split_ifs with h1 h2 h3 h4
  · have hm : (32 * m + n) % 32 = n := by omega
    have hd : (32 * m + n) / 32 = m := by omega
    simp [hm, hd, h1]
  · have hm : (32 * m + 24) % 32 = 24 := by omega
    have hd : (32 * m + 24) / 32 = m := by omega
    simp [hm, hd, readBE_natToBE]
    omega
  · have hm : (32 * m + 25) % 32 = 25 := by omega
    have hd : (32 * m + 25) / 32 = m := by omega
    simp [hm, hd, readBE_natToBE]
    omega
  · have hm : (32 * m + 26) % 32 = 26 := by omega
    have hd : (32 * m + 26) / 32 = m := by omega
    simp [hm, hd, readBE_natToBE]
    omega
  · have hm : (32 * m + 27) % 32 = 27 := by omega
    have hd : (32 * m + 27) / 32 = m := by omega
    simp [hm, hd, readBE_natToBE]
    omega

/-- Decoding inverts the integer encoding within the head range. -/
theorem decodeInt_encodeInt (i : Int) (r : List Nat)
    (h1 : -(2 ^ 64 : Int) ≤ i) (h2 : i < 2 ^ 64) :
    decodeInt (encodeInt i ++ r) = some (i, r) := by
  unfold encodeInt decodeInt
  split_ifs with hp
  · rw [decodeHead_encodeHead 0 i.toNat r (by omega)]
    show some ((i.toNat : Int), r) = some (i, r)
    rw [Int.toNat_of_nonneg hp]
  · rw [decodeHead_encodeHead 1 (-(i + 1)).toNat r (by omega)]
    show some (-(((-(i + 1)).toNat : Int) + 1), r) = some (i, r)
    rw [Int.toNat_of_nonneg (show (0 : Int) ≤ -(i + 1) by omega)]
    have hi : -(-(i + 1) + 1) = i := by ring
    rw [hi]

/-- Decoding inverts the leaf encoding for well-formed leaves. -/
theorem decodeLeaf_encodeLeaf (v : CborLeaf) (r : List Nat) (h : LeafWF v) :
    decodeLeaf (encodeLeaf v ++ r) = some (v, r) := by
  cases v with
  | int i =>
    have h' : -(2 ^ 64 : Int) ≤ i ∧ i < 2 ^ 64 := h
    obtain ⟨hl, hr⟩ := h'
    simp only [encodeLeaf]
    unfold encodeInt decodeLeaf
    split_ifs with hp
    · rw [decodeHead_encodeHead 0 i.toNat r (by omega)]
      show some (CborLeaf.int (i.toNat : Int), r) = some (.int i, r)
      rw [Int.toNat_of_nonneg hp]
    · rw [decodeHead_encodeHead 1 (-(i + 1)).toNat r (by omega)]
      show some (CborLeaf.int (-(((-(i + 1)).toNat : Int) + 1)), r) = some (.int i, r)
      rw [Int.toNat_of_nonneg (show (0 : Int) ≤ -(i + 1) by omega)]
      have hi : -(-(i + 1) + 1) = i := by ring
      rw [hi]
  | bytes b =>
    have h' : b.length < 2 ^ 64 := h
    simp only [encodeLeaf]
    unfold decodeLeaf
    rw [List.append_assoc, decodeHead_encodeHead 2 b.length (b ++ r) h']
    show (if b.length ≤ (b ++ r).length then
        some (CborLeaf.bytes ((b ++ r).take b.length), (b ++ r).drop b.length)
      else none) = some (.bytes b, r)
    rw [if_pos (by simp), List.take_left, List.drop_left]

/-- Decoding inverts the entry-list encoding for well-formed entries. -/
theorem decodeEntries_encode (k : CoseKeyMap) (r : List Nat)
    (h : ∀ p ∈ k, EntryWF p) :
    decodeEntries k.length
      ((k.map (fun p => encodeInt p.1 ++ encodeLeaf p.2)).flatten ++ r) = some (k, r) := by
  induction k with
  | nil => simp [decodeEntries]
  | cons hd tl ih =>
    have hhd := h hd (by simp)
    have htl : ∀ p ∈ tl, EntryWF p := fun p hp => h p (by simp [hp])
    obtain ⟨⟨hi1, hi2⟩, hleaf⟩ := hhd
    simp only [List.map_cons, List.flatten_cons, List.length_cons, List.append_assoc]
    unfold decodeEntries
    rw [decodeInt_encodeInt hd.1 _ hi1 hi2]
    simp only [Option.some_bind]
    rw [decodeLeaf_encodeLeaf hd.2 _ hleaf]
    simp only [Option.some_bind]
    rw [ih htl]
    simp only [Option.map_some']

/-- Claim C5: for every supported COSE public key (algorithm label 3 is
ES256's -7 or RS256's -257; entries within the CBOR head range, as every
real key's are), `deserialize_public_key (serialize_public_key k) = k`:
the two functions form a round-trip inverse pair. -/
theorem C5_public_key_round_trip (k : CoseKeyMap) (hwf : CoseKeyWF k)
    (halg : k.lookup 3 = some (.int (-7)) ∨ k.lookup 3 = some (.int (-257))) :
    Credential.deserialize_public_key (Credential.serialize_public_key k) = some k := by
  obtain ⟨hlen, hent⟩ := hwf
  unfold Credential.serialize_public_key Credential.deserialize_public_key cbor_dumps cbor_loads
  rw [decodeHead_encodeHead 5 k.length _ hlen]
  have hd := decodeEntries_encode k [] hent
  rw [List.append_nil] at hd
  show (match decodeEntries k.length
      ((k.map (fun p : Int × CborLeaf => encodeInt p.1 ++ encodeLeaf p.2)).flatten) with
    | some (m, _) => some m
    | none => none).bind Credential.CoseKey.parse = some k
  rw [hd]
  show Credential.CoseKey.parse k = some k
  unfold Credential.CoseKey.parse
  rcases halg with h | h <;> rw [h]
  · show (if (-7 : Int) = 0 then none else some k) = some k
    rw [if_neg (by norm_num)]
  · show (if (-257 : Int) = 0 then none else some k) = some k
    rw [if_neg (by norm_num)]

/-- Witness for C5 at a concrete ES256-shaped key. -/
theorem C5_public_key_round_trip_witness :
    Credential.deserialize_public_key (Credential.serialize_public_key
      [((1 : Int), CborLeaf.int 2), (3, CborLeaf.int (-7)), (-1, CborLeaf.int 1),
       (-2, CborLeaf.bytes [4, 250]), (-3, CborLeaf.bytes [9])]) =
    some [((1 : Int), CborLeaf.int 2), (3, CborLeaf.int (-7)), (-1, CborLeaf.int 1),
       (-2, CborLeaf.bytes [4, 250]), (-3, CborLeaf.bytes [9])] :=
  C5_public_key_round_trip _ (by decide) (Or.inl (by decide))

/-- Claim C2: `verify_origin origin` is true iff `origin` is literally a
member of the configured allowed-origins list, and an authentication
`complete` whose clientDataJSON origin is not a member never succeeds, for
any signature validity. -/
theorem C2_origin_exact_match_and_enforced (origins : List String) (origin : String) :
    (verify_origin origins origin = true ↔ origin ∈ origins) ∧
    ∀ (state : AuthState) (db : List StoredCredential) (data : AuthCompleteData),
      data.clientDataOrigin ∉ origins →
      (WebAuthnAuthentication.complete origins state db data).1 ≠ AuthResult.success := by
  constructor
  · simp [verify_origin]
  · intro state db data hmem
    have hvo : verify_origin origins data.clientDataOrigin = false := by
      simp [verify_origin, hmem]
    have hs : server_authenticate_complete origins state data = false := by
      simp [server_authenticate_complete, hvo]
    cases hfind : find_one db data.id with
    | none => simp [WebAuthnAuthentication.complete, hfind]
    | some cred =>
      cases hpk : Credential.deserialize_public_key cred.public_key with
      | none => simp [WebAuthnAuthentication.complete, hfind, hpk]
      | some pk => simp [WebAuthnAuthentication.complete, hfind, hpk, hs]

/-- Witness for C2: localhost origin is accepted by membership, and a
correctly signed response from an unlisted origin does not succeed. -/
theorem C2_origin_exact_match_and_enforced_witness :
    (verify_origin ["https://localhost"] "https://localhost" = true ↔
      "https://localhost" ∈ ["https://localhost"]) ∧
    (WebAuthnAuthentication.complete ["https://localhost"] ⟨"ch", false⟩
      [⟨"public-key", "A", [161, 3, 38], 0, "alice", "u", "alice"⟩]
      ⟨"A", "webauthn.get", "ch", "https://evil.example", 5, 1, true⟩).1 ≠
      AuthResult.success :=
  ⟨(C2_origin_exact_match_and_enforced ["https://localhost"] "https://localhost").1,
   (C2_origin_exact_match_and_enforced ["https://localhost"] "https://localhost").2
     ⟨"ch", false⟩ [⟨"public-key", "A", [161, 3, 38], 0, "alice", "u", "alice"⟩]
     ⟨"A", "webauthn.get", "ch", "https://evil.example", 5, 1, true⟩ (by decide)⟩

/-- Claim C3: whenever authentication `complete` does not succeed, the
credentials collection — in particular every stored `sign_count` — is
returned exactly as it was. -/
theorem C3_error_leaves_store_unchanged (origins : List String) (state : AuthState)
    (db : List StoredCredential) (data : AuthCompleteData)
    (h : (WebAuthnAuthentication.complete origins state db data).1 ≠ AuthResult.success) :
    (WebAuthnAuthentication.complete origins state db data).2 = db := by
  cases hfind : find_one db data.id with
  | none => simp [WebAuthnAuthentication.complete, hfind]
  | some cred =>
    cases hpk : Credential.deserialize_public_key cred.public_key with
    | none => simp [WebAuthnAuthentication.complete, hfind, hpk]
    | some pk =>
      cases hs : server_authenticate_complete origins state data with
      | false => simp [WebAuthnAuthentication.complete, hfind, hpk, hs]
      | true =>
        cases hup : is_user_present data.flags with
        | false => simp [WebAuthnAuthentication.complete, hfind, hpk, hs, hup]
        | true =>
          cases huv : is_user_verified data.flags with
          | false => simp [WebAuthnAuthentication.complete, hfind, hpk, hs, hup, huv]
          | true =>
            exact absurd (by simp [WebAuthnAuthentication.complete, hfind, hpk, hs, hup, huv]) h

/-- Witness for C3: a failing completion (unknown credential id) leaves
the store unchanged. -/
theorem C3_error_leaves_store_unchanged_witness :
    (WebAuthnAuthentication.complete [] ⟨"ch", false⟩
      [⟨"public-key", "B", [161, 3, 38], 7, "bob", "u", "bob"⟩]
      ⟨"A", "webauthn.get", "ch", "https://localhost", 5, 3, true⟩).2 =
    [⟨"public-key", "B", [161, 3, 38], 7, "bob", "u", "bob"⟩] :=
  C3_error_leaves_store_unchanged [] ⟨"ch", false⟩
    [⟨"public-key", "B", [161, 3, 38], 7, "bob", "u", "bob"⟩]
    ⟨"A", "webauthn.get", "ch", "https://localhost", 5, 3, true⟩ (by decide)

/-- Counterexample to claim C1: stored `sign_count = 5`, response counter
`3` (both nonzero, `3 <= 5`), every other check passing — `complete` does
NOT reject with a cloning error; it returns success and overwrites the
stored `sign_count` with `3`. -/
theorem C1_counterexample :
    0 < (3 : Nat) ∧ (3 : Nat) ≤ 5 ∧
    WebAuthnAuthentication.complete ["https://localhost"] ⟨"ch", false⟩
      [⟨"public-key", "A", [161, 3, 38], 5, "alice", "u", "alice"⟩]
      ⟨"A", "webauthn.get", "ch", "https://localhost", 5, 3, true⟩ =
    (AuthResult.success, [⟨"public-key", "A", [161, 3, 38], 3, "alice", "u", "alice"⟩]) := by
  decide

/-- Claim C1 (amended): the counter is never compared for acceptance — a
non-increasing nonzero counter only produces a log warning.  Whenever the
credential lookup, the stored-key deserialization, the server checks and
the presence/verification flags pass, `complete` succeeds and sets the
stored `sign_count` to the response counter `new`, both when `new > old`
and when `new` and `old` are nonzero with `new <= old`. -/
theorem C1_sign_count_always_updated (origins : List String) (state : AuthState)
    (db : List StoredCredential) (data : AuthCompleteData)
    (cred : StoredCredential) (pk : CoseKeyMap)
    (hfind : find_one db data.id = some cred)
    (hpk : Credential.deserialize_public_key cred.public_key = some pk)
    (hs : server_authenticate_complete origins state data = true)
    (hup : is_user_present data.flags = true)
    (huv : is_user_verified data.flags = true) :
    WebAuthnAuthentication.complete origins state db data =
      (AuthResult.success, update_one db data.id data.counter) := by
  simp [WebAuthnAuthentication.complete, hfind, hpk, hs, hup, huv]

/-- Witness for the amended C1 at the counterexample's input. -/
theorem C1_sign_count_always_updated_witness :
    WebAuthnAuthentication.complete ["https://localhost"] ⟨"ch", false⟩
      [⟨"public-key", "A", [161, 3, 38], 5, "alice", "u", "alice"⟩]
      ⟨"A", "webauthn.get", "ch", "https://localhost", 5, 3, true⟩ =
    (AuthResult.success,
     update_one [⟨"public-key", "A", [161, 3, 38], 5, "alice", "u", "alice"⟩] "A" 3) :=
  C1_sign_count_always_updated ["https://localhost"] ⟨"ch", false⟩
    [⟨"public-key", "A", [161, 3, 38], 5, "alice", "u", "alice"⟩]
    ⟨"A", "webauthn.get", "ch", "https://localhost", 5, 3, true⟩
    ⟨"public-key", "A", [161, 3, 38], 5, "alice", "u", "alice"⟩
    [(3, CborLeaf.int (-7))] (by decide) (by decide) (by decide) (by decide) (by decide)

/-- Counterexample to claim C8: policy is merely preferred
(`userVerificationRequired = false`), the user-present flag is set and the
user-verified flag is clear (flags byte 1), every other check passes — the
claim says this is not rejected on verification grounds, but `complete`
rejects it with "User verification required but not performed". -/
theorem C8_counterexample :
    WebAuthnAuthentication.complete ["https://localhost"] ⟨"ch", false⟩
      [⟨"public-key", "A", [161, 3, 38], 0, "alice", "u", "alice"⟩]
      ⟨"A", "webauthn.get", "ch", "https://localhost", 1, 1, true⟩ =
    (AuthResult.error "User verification required but not performed",
     [⟨"public-key", "A", [161, 3, 38], 0, "alice", "u", "alice"⟩]) := by
  decide

/-- Claim C8 (amended): `complete` requires BOTH flags unconditionally —
it never succeeds when the user-present flag is clear, and even when the
ceremony policy does not require verification it rejects a response whose
user-present flag is set but whose user-verified flag is clear. -/
theorem C8_presence_and_verification_both_required (origins : List String)
    (state : AuthState) (db : List StoredCredential) (data : AuthCompleteData) :
    (is_user_present data.flags = false →
      (WebAuthnAuthentication.complete origins state db data).1 ≠ AuthResult.success) ∧
    ∀ (cred : StoredCredential) (pk : CoseKeyMap),
      find_one db data.id = some cred →
      Credential.deserialize_public_key cred.public_key = some pk →
      server_authenticate_complete origins state data = true →
      is_user_present data.flags = true →
      is_user_verified data.flags = false →
      WebAuthnAuthentication.complete origins state db data =
        (AuthResult.error "User verification required but not performed", db) := by
  constructor
  · intro hup
    cases hfind : find_one db data.id with
    | none => simp [WebAuthnAuthentication.complete, hfind]
    | some cred =>
      cases hpk : Credential.deserialize_public_key cred.public_key with
      | none => simp [WebAuthnAuthentication.complete, hfind, hpk]
      | some pk =>
        have hs : server_authenticate_complete origins state data = false := by
          simp [server_authenticate_complete, hup]
        simp [WebAuthnAuthentication.complete, hfind, hpk, hs]
  · intro cred pk hfind hpk hs hup huv
    simp [WebAuthnAuthentication.complete, hfind, hpk, hs, hup, huv]

/-- Witness for the amended C8: a user-absent response (flags 0) does not
succeed, and a present-but-unverified response (flags 1) is rejected with
the verification error even though the policy does not require it. -/
theorem C8_presence_and_verification_both_required_witness :
    ((WebAuthnAuthentication.complete ["https://localhost"] ⟨"ch", false⟩
      [⟨"public-key", "A", [161, 3, 38], 0, "alice", "u", "alice"⟩]
      ⟨"A", "webauthn.get", "ch", "https://localhost", 0, 1, true⟩).1 ≠
      AuthResult.success) ∧
    WebAuthnAuthentication.complete ["https://localhost"] ⟨"ch", false⟩
      [⟨"public-key", "A", [161, 3, 38], 0, "alice", "u", "alice"⟩]
      ⟨"A", "webauthn.get", "ch", "https://localhost", 1, 2, true⟩ =
    (AuthResult.error "User verification required but not performed",
     [⟨"public-key", "A", [161, 3, 38], 0, "alice", "u", "alice"⟩]) :=
  ⟨(C8_presence_and_verification_both_required ["https://localhost"] ⟨"ch", false⟩
      [⟨"public-key", "A", [161, 3, 38], 0, "alice", "u", "alice"⟩]
      ⟨"A", "webauthn.get", "ch", "https://localhost", 0, 1, true⟩).1 (by decide),
   (C8_presence_and_verification_both_required ["https://localhost"] ⟨"ch", false⟩
      [⟨"public-key", "A", [161, 3, 38], 0, "alice", "u", "alice"⟩]
      ⟨"A", "webauthn.get", "ch", "https://localhost", 1, 2, true⟩).2
      ⟨"public-key", "A", [161, 3, 38], 0, "alice", "u", "alice"⟩
      [(3, CborLeaf.int (-7))] (by decide) (by decide) (by decide) (by decide) (by decide)⟩

/-- Counterexample to claim C6: a registration response whose credential id
"A" already exists in the store does not fail with a duplicate error — it
succeeds and inserts a second record with the same id. -/
theorem C6_counterexample :
    WebAuthnRegistration.complete ["https://localhost"] ⟨"ch", false⟩
      [⟨"public-key", "A", [161, 3, 38], 0, "alice", "u", "alice"⟩]
      ⟨⟨"alice", "u2", "Alice"⟩, "webauthn.create", "ch", "https://localhost",
        "A", [(3, CborLeaf.int (-7))], 0, true⟩ =
    (RegResult.success "A" "alice",
     [⟨"public-key", "A", [161, 3, 38], 0, "alice", "u", "alice"⟩,
      ⟨"public-key", "A", [161, 3, 38], 0, "alice", "u2", "Alice"⟩]) ∧
    ((WebAuthnRegistration.complete ["https://localhost"] ⟨"ch", false⟩
      [⟨"public-key", "A", [161, 3, 38], 0, "alice", "u", "alice"⟩]
      ⟨⟨"alice", "u2", "Alice"⟩, "webauthn.create", "ch", "https://localhost",
        "A", [(3, CborLeaf.int (-7))], 0, true⟩).2.filter
      (fun c => c.id == "A")).length = 2 := by
  decide

/-- Claim C6 (amended): registration `complete` performs no duplicate
check: when the server-side verification passes it succeeds and appends
the new record even when the credential id already exists, so ids in the
store are not unique (the pre-existing record itself is left in place,
but a second record with the same id now follows it). -/
theorem C6_duplicate_id_not_rejected (origins : List String) (state : RegState)
    (db : List StoredCredential) (data : RegCompleteData)
    (hdup : ∃ c ∈ db, c.id = data.attCredentialId)
    (hs : server_register_complete origins state data = true) :
    WebAuthnRegistration.complete origins state db data =
      (RegResult.success data.attCredentialId data.user.name,
       db ++ [WebAuthnRegistration.mongoCredentialDict data]) := by
  simp [WebAuthnRegistration.complete, hs]

/-- Witness for the amended C6 at the counterexample's input. -/
theorem C6_duplicate_id_not_rejected_witness :
    WebAuthnRegistration.complete ["https://localhost"] ⟨"ch", false⟩
      [⟨"public-key", "A", [161, 3, 38], 0, "alice", "u", "alice"⟩]
      ⟨⟨"alice", "u2", "Alice"⟩, "webauthn.create", "ch", "https://localhost",
        "A", [(3, CborLeaf.int (-7))], 0, true⟩ =
    (RegResult.success "A" "alice",
     [⟨"public-key", "A", [161, 3, 38], 0, "alice", "u", "alice"⟩] ++
      [WebAuthnRegistration.mongoCredentialDict
        ⟨⟨"alice", "u2", "Alice"⟩, "webauthn.create", "ch", "https://localhost",
          "A", [(3, CborLeaf.int (-7))], 0, true⟩]) :=
  C6_duplicate_id_not_rejected ["https://localhost"] ⟨"ch", false⟩
    [⟨"public-key", "A", [161, 3, 38], 0, "alice", "u", "alice"⟩]
    ⟨⟨"alice", "u2", "Alice"⟩, "webauthn.create", "ch", "https://localhost",
      "A", [(3, CborLeaf.int (-7))], 0, true⟩
    ⟨⟨"public-key", "A", [161, 3, 38], 0, "alice", "u", "alice"⟩, by decide, by decide⟩
    (by decide)

/-- Counterexample to claim C7: registration `begin` with an empty
username does not fail with a validation error — it returns creation
options together with a fresh ceremony state. -/
theorem C7_counterexample :
    WebAuthnRegistration.begin [] "" "uid" "sc" "oc" =
      WebAuthnRegistration.RegBeginResult.ok "oc" ⟨"sc", false⟩ := by
  decide

/-- Claim C7 (amended): registration `begin` performs no username
validation: called with the empty username it still succeeds, returning
creation options and a ceremony state (the "no username provided"
rejection exists only in authentication `begin`). -/
theorem C7_empty_username_accepted (db : List StoredCredential)
    (userId sc oc : String) :
    WebAuthnRegistration.begin db "" userId sc oc =
      WebAuthnRegistration.RegBeginResult.ok oc ⟨sc, false⟩ := by
  simp only [WebAuthnRegistration.begin]
  rcases find_one_username db "" with _ | c <;> rfl

/-- Claim C9: every successful registration appends exactly the record
built by `mongoCredentialDict`, whose `username`, `userId` and
`displayName` are the client-supplied `data['user']` fields
(`mongoCredentialDict` is a function of the request body alone — the
ceremony state contributes nothing and no cross-check happens). -/
theorem C9_persisted_user_fields_from_request (origins : List String)
    (state : RegState) (db : List StoredCredential) (data : RegCompleteData)
    (cid un : String)
    (h : (WebAuthnRegistration.complete origins state db data).1 =
      RegResult.success cid un) :
    (WebAuthnRegistration.complete origins state db data).2 =
      db ++ [WebAuthnRegistration.mongoCredentialDict data] ∧
    (WebAuthnRegistration.mongoCredentialDict data).username = data.user.name ∧
    (WebAuthnRegistration.mongoCredentialDict data).userId = data.user.id ∧
    (WebAuthnRegistration.mongoCredentialDict data).displayName = data.user.displayName := by
  cases hs : server_register_complete origins state data with
  | false => simp [WebAuthnRegistration.complete, hs] at h
  | true => exact ⟨by simp [WebAuthnRegistration.complete, hs], rfl, rfl, rfl⟩

/-- Witness for C9: a successful registration whose request body carries
arbitrary user fields persists exactly those fields. -/
theorem C9_persisted_user_fields_from_request_witness :
    (WebAuthnRegistration.complete ["https://localhost"] ⟨"ch", false⟩ []
      ⟨⟨"mallory", "mid", "Mallory"⟩, "webauthn.create", "ch", "https://localhost",
        "A", [(3, CborLeaf.int (-7))], 0, true⟩).2 =
      [] ++ [WebAuthnRegistration.mongoCredentialDict
        ⟨⟨"mallory", "mid", "Mallory"⟩, "webauthn.create", "ch", "https://localhost",
          "A", [(3, CborLeaf.int (-7))], 0, true⟩] ∧
    (WebAuthnRegistration.mongoCredentialDict
      ⟨⟨"mallory", "mid", "Mallory"⟩, "webauthn.create", "ch", "https://localhost",
        "A", [(3, CborLeaf.int (-7))], 0, true⟩).username = "mallory" ∧
    (WebAuthnRegistration.mongoCredentialDict
      ⟨⟨"mallory", "mid", "Mallory"⟩, "webauthn.create", "ch", "https://localhost",
        "A", [(3, CborLeaf.int (-7))], 0, true⟩).userId = "mid" ∧
    (WebAuthnRegistration.mongoCredentialDict
      ⟨⟨"mallory", "mid", "Mallory"⟩, "webauthn.create", "ch", "https://localhost",
        "A", [(3, CborLeaf.int (-7))], 0, true⟩).displayName = "Mallory" :=
  C9_persisted_user_fields_from_request ["https://localhost"] ⟨"ch", false⟩ []
    ⟨⟨"mallory", "mid", "Mallory"⟩, "webauthn.create", "ch", "https://localhost",
      "A", [(3, CborLeaf.int (-7))], 0, true⟩ "A" "mallory" (by decide)

/-- Claim C10: registration `begin` never fails because the username
already owns credentials — for a username with stored credentials it
still returns creation options and a fresh ceremony state (the existing
registration is looked up but only logged). -/
theorem C10_begin_ignores_existing_registration (db : List StoredCredential)
    (username userId sc oc : String)
    (h : ∃ c ∈ db, c.username = username) :
    WebAuthnRegistration.begin db username userId sc oc =
      WebAuthnRegistration.RegBeginResult.ok oc ⟨sc, false⟩ := by
  simp only [WebAuthnRegistration.begin]
  rcases find_one_username db username with _ | c <;> rfl

/-- Witness for C10: a username that already owns a credential still gets
fresh creation options and state. -/
theorem C10_begin_ignores_existing_registration_witness :
    WebAuthnRegistration.begin
      [⟨"public-key", "A", [161, 3, 38], 0, "alice", "u", "alice"⟩]
      "alice" "uid2" "sc2" "oc2" = WebAuthnRegistration.RegBeginResult.ok "oc2" ⟨"sc2", false⟩ :=
  C10_begin_ignores_existing_registration
    [⟨"public-key", "A", [161, 3, 38], 0, "alice", "u", "alice"⟩]
    "alice" "uid2" "sc2" "oc2" (by decide)

/-- Claim C4: ceremony state is consumed at most once by the complete
routes.  A first `/authenticate/complete` (resp. `/register/complete`)
call on a session holding a state removes the state whatever the ceremony
outcome, and a second call against the resulting session fails with the
KeyError that `session.pop` raises for a missing/already-consumed state —
it cannot succeed again. -/
theorem C4_state_consumed_at_most_once (origins : List String) (sess : Session)
    (db db2 : List StoredCredential) (adata adata2 : AuthCompleteData)
    (rdata rdata2 : RegCompleteData) :
    (∀ st : AuthState, sess.auth_state = some st →
      (authenticate_complete_route origins sess db adata).2.1.auth_state = none ∧
      (authenticate_complete_route origins
        (authenticate_complete_route origins sess db adata).2.1 db2 adata2).1 =
        AuthRouteOutcome.keyError) ∧
    (∀ rst : RegState, sess.register_state = some rst →
      (register_complete_route origins sess db rdata).2.1.register_state = none ∧
      (register_complete_route origins
        (register_complete_route origins sess db rdata).2.1 db2 rdata2).1 =
        RegRouteOutcome.keyError) := by
  have hauth : ∀ s2 : Session, s2.auth_state = none →
      (authenticate_complete_route origins s2 db2 adata2).1 = .keyError := by
    intro s2 hs2
    unfold authenticate_complete_route
    rw [hs2]
  have hreg : ∀ s2 : Session, s2.register_state = none →
      (register_complete_route origins s2 db2 rdata2).1 = .keyError := by
    intro s2 hs2
    unfold register_complete_route
    rw [hs2]
  constructor
  · intro st h
    have h1 : (authenticate_complete_route origins sess db adata).2.1.auth_state = none := by
      unfold authenticate_complete_route
      rw [h]
      rcases hres : WebAuthnAuthentication.complete origins st db adata with ⟨res, db'⟩
      cases res <;> simp [hres]
    exact ⟨h1, hauth _ h1⟩
  · intro rst h
    have h1 : (register_complete_route origins sess db rdata).2.1.register_state = none := by
      unfold register_complete_route
      rw [h]
    exact ⟨h1, hreg _ h1⟩

/-- Witness for C4: on a session holding both states, each complete route
consumes its state and a repeated call yields the missing-state failure. -/
theorem C4_state_consumed_at_most_once_witness :
    ((authenticate_complete_route []
        (authenticate_complete_route [] ⟨some ⟨"r", false⟩, some ⟨"c", false⟩, none⟩
          [] ⟨"A", "webauthn.get", "c", "o", 5, 1, true⟩).2.1
        [] ⟨"A", "webauthn.get", "c", "o", 5, 1, true⟩).1 =
      AuthRouteOutcome.keyError) ∧
    ((register_complete_route []
        (register_complete_route [] ⟨some ⟨"r", false⟩, some ⟨"c", false⟩, none⟩
          [] ⟨⟨"alice", "u", "alice"⟩, "webauthn.create", "r", "o",
            "A", [(3, CborLeaf.int (-7))], 0, true⟩).2.1
        [] ⟨⟨"alice", "u", "alice"⟩, "webauthn.create", "r", "o",
          "A", [(3, CborLeaf.int (-7))], 0, true⟩).1 =
      RegRouteOutcome.keyError) :=
  ⟨((C4_state_consumed_at_most_once [] ⟨some ⟨"r", false⟩, some ⟨"c", false⟩, none⟩
      [] [] ⟨"A", "webauthn.get", "c", "o", 5, 1, true⟩
      ⟨"A", "webauthn.get", "c", "o", 5, 1, true⟩
      ⟨⟨"alice", "u", "alice"⟩, "webauthn.create", "r", "o",
        "A", [(3, CborLeaf.int (-7))], 0, true⟩
      ⟨⟨"alice", "u", "alice"⟩, "webauthn.create", "r", "o",
        "A", [(3, CborLeaf.int (-7))], 0, true⟩).1 ⟨"c", false⟩ rfl).2,
   ((C4_state_consumed_at_most_once [] ⟨some ⟨"r", false⟩, some ⟨"c", false⟩, none⟩
      [] [] ⟨"A", "webauthn.get", "c", "o", 5, 1, true⟩
      ⟨"A", "webauthn.get", "c", "o", 5, 1, true⟩
      ⟨⟨"alice", "u", "alice"⟩, "webauthn.create", "r", "o",
        "A", [(3, CborLeaf.int (-7))], 0, true⟩
      ⟨⟨"alice", "u", "alice"⟩, "webauthn.create", "r", "o",
        "A", [(3, CborLeaf.int (-7))], 0, true⟩).2 ⟨"r", false⟩ rfl).2⟩
